import Mathlib

/-
Verification of the Open Graph / Schema.org metadata serialization layer of
django-commoncontent (src/commoncontent/schemas.py), as a shallow embedding.

Python strings are Lean `String`; `None`-able fields are `Option`; functions
that can raise are `Except String` (the error message) or return plain values
when the Python code cannot raise.  External library helpers used by the code
(urllib.parse.urlparse, django.utils.html.escape/strip_tags/format_html/
json_script) are embedded from their library definitions where they are
exercised, and noted where simplified.
-/

/-- The apostrophe character (codepoint 39). -/
def squote : Char := Char.ofNat 39

/-- Lowercase hexadecimal digit for a value below 16. -/
def hexDigit (n : Nat) : Char :=
  if n < 10 then Char.ofNat (48 + n) else Char.ofNat (87 + n)

/-- Two lowercase hex digits of a byte. -/
def hex2 (n : Nat) : String := String.mk [hexDigit (n / 16 % 16), hexDigit (n % 16)]

/-- Four lowercase hex digits of a 16-bit value. -/
def hex4 (n : Nat) : String :=
  String.mk [hexDigit (n / 4096 % 16), hexDigit (n / 256 % 16),
             hexDigit (n / 16 % 16), hexDigit (n % 16)]

/-- django.utils.html.escape on one character: the five HTML special
characters are replaced, all other characters pass through. -/
def escapeChar (c : Char) : String :=
  if c = '&' then "&amp;"
  else if c = '<' then "&lt;"
  else if c = '>' then "&gt;"
  else if c = '"' then "&quot;"
  else if c = squote then "&#x27;"
  else String.singleton c

/-- django.utils.html.escape: simultaneous single-pass replacement of the
five HTML special characters. -/
def escape (s : String) : String :=
  s.data.foldl (fun acc c => acc ++ escapeChar c) ""

/-- One stripping pass of django.utils.html.strip_tags, modelled as removal
of each region from an opening angle bracket to the next closing one.  The
HTMLParser edge cases (comments, entity references, malformed markup) are not
modelled; no verified claim depends on them. -/
def stripTagsCore : List Char → List Char
  | [] => []
  | c :: cs => if c = '<' then stripTagsInTag cs else c :: stripTagsCore cs
where
  stripTagsInTag : List Char → List Char
  | [] => []
  | c :: cs => if c = '>' then stripTagsCore cs else stripTagsInTag cs

/-- django.utils.html.strip_tags (see `stripTagsCore` for the modelled scope). -/
def strip_tags (s : String) : String := String.mk (stripTagsCore s.data)

/-- Zero-pad the decimal representation of `n` to width `w` (printf %0wd
for non-negative values). -/
def padNat (w n : Nat) : String :=
  let s := toString n
  String.mk (List.replicate (w - s.length) '0') ++ s

/-- datetime.date.isoformat: YYYY-MM-DD with zero padding. -/
def isoDate (y m d : Nat) : String :=
  padNat 4 y ++ "-" ++ padNat 2 m ++ "-" ++ padNat 2 d

/-- datetime.datetime.isoformat: date, the separator T, HH:MM:SS, and a
six-digit fractional part only when the microsecond field is nonzero. -/
def isoDateTime (y m d h mi s mic : Nat) : String :=
  isoDate y m d ++ "T" ++ padNat 2 h ++ ":" ++ padNat 2 mi ++ ":" ++ padNat 2 s ++
    (if mic = 0 then "" else "." ++ padNat 6 mic)

/-- str(datetime.datetime(...)), which uses a space separator instead of T. -/
def strDateTime (y m d h mi s mic : Nat) : String :=
  isoDate y m d ++ " " ++ padNat 2 h ++ ":" ++ padNat 2 mi ++ ":" ++ padNat 2 s ++
    (if mic = 0 then "" else "." ++ padNat 6 mic)

/-- Whether the pattern occurs at the head of the text. -/
def listStarts : List Char → List Char → Bool
  | [], _ => true
  | _ :: _, [] => false
  | a :: as, b :: bs => a = b && listStarts as bs

/-- str.startswith: whether the string begins with the given text. -/
def pyStartsWith (s pre : String) : Bool := listStarts pre.data s.data

----------------------------------------------------------------------------------
-- urllib.parse.urlparse, restricted to the scheme and netloc components,
-- which are the only components schemas.py reads.
----------------------------------------------------------------------------------

/-- The characters CPython allows inside a URL scheme after the first
(scheme_chars in urllib/parse.py). -/
def isSchemeChar (c : Char) : Bool :=
  c.isAlpha || c.isDigit || c = '+' || c = '-' || c = '.'

/-- Split a character list at its first colon: the part before and the part
after, or `none` when there is no colon (str.find returning -1). -/
def upToColon : List Char → Option (List Char × List Char)
  | [] => none
  | c :: cs =>
    if c = ':' then some ([], cs)
    else match upToColon cs with
         | none => none
         | some (pre, post) => some (c :: pre, post)

/-- CPython urlsplit scheme extraction: the text before the first colon is a
scheme when it is nonempty, starts with an ASCII letter and consists of
scheme characters; it is lowercased, and the remainder follows the colon.
Otherwise the scheme is empty and the whole input remains. -/
def splitScheme (l : List Char) : List Char × List Char :=
  match upToColon l with
  | none => ([], l)
  | some ([], _) => ([], l)
  | some (c :: cs, rest) =>
    if c.isAlpha && (c :: cs).all isSchemeChar then ((c :: cs).map Char.toLower, rest)
    else ([], l)

/-- Characters that terminate the netloc component (CPython _splitnetloc). -/
def isNetlocStop (c : Char) : Bool := c = '/' || c = '?' || c = '#'

/-- CPython netloc extraction: when the remainder after the scheme starts
with two slashes, the netloc runs to the next slash, question mark or hash. -/
def splitNetloc : List Char → List Char × List Char
  | c1 :: c2 :: rest =>
    if c1 = '/' && c2 = '/' then
      (rest.takeWhile (fun c => !isNetlocStop c), rest.dropWhile (fun c => !isNetlocStop c))
    else ([], c1 :: c2 :: rest)
  | l => ([], l)

/-- The two components of a parse result that validate_http_url inspects. -/
structure UrlParts where
  scheme : String
  netloc : String
deriving DecidableEq

/-- urllib.parse.urlparse restricted to scheme and netloc.  The
control-character sanitization added in recent CPython releases is not
modelled; inputs considered are printable. -/
def urlparse (s : String) : UrlParts :=
  let p := splitScheme s.data
  let q := splitNetloc p.2
  ⟨String.mk p.1, String.mk q.1⟩

/-- schemas.validate_http_url: parse, fail when scheme or netloc is missing,
fail when the scheme does not start with http, otherwise return the input
string unchanged. -/
def validate_http_url (value : String) : Except String String :=
  if (urlparse value).scheme = "" || (urlparse value).netloc = "" then
    Except.error (value ++ " is not a valid URL")
  else if !(pyStartsWith (urlparse value).scheme "http") then
    Except.error "URL must start with http or https"
  else
    Except.ok value

/-- The conditional validation applied by the various __post_init__ bodies:
`if self.x: self.x = validate_http_url(self.x)`.  `None` and the empty
string are falsy and skip validation; other strings are validated and the
validated value is stored. -/
def initOpt (u : Option String) : Except String (Option String) :=
  match u with
  | none => Except.ok none
  | some v => if v = "" then Except.ok (some v) else (validate_http_url v).map some

----------------------------------------------------------------------------------
-- Open Graph structured properties (StructuredProperty and subtypes)
----------------------------------------------------------------------------------

/-- Field values flowing through the generic items() iteration of a
structured property: absent, a string, or an integer. -/
inductive OGVal where
  | null
  | str (v : String)
  | int (n : Int)
deriving DecidableEq

/-- Python truthiness of an items() value: None, the empty string and zero
are falsy. -/
def ogTruthy : OGVal → Bool
  | .null => false
  | .str v => !(v = "")
  | .int n => !(n = 0)

/-- str() of an items() value as passed to format_html (str(None) is the
text None). -/
def ogValStr : OGVal → String
  | .null => "None"
  | .str v => v
  | .int n => toString n

/-- Lift an optional string field into an items() value. -/
def ogvS : Option String → OGVal
  | none => .null
  | some v => .str v

/-- Lift an optional integer field into an items() value. -/
def ogvI : Option Int → OGVal
  | none => .null
  | some n => .int n

/-- str(None) or the string itself, as format_html renders an optional. -/
def pyStrOpt : Option String → String
  | none => "None"
  | some v => v

/-- The metatag template of schemas.py combined with format_html, which
HTML-escapes each interpolated argument. -/
def metaTag (ns field content : String) : String :=
  "<meta property=\"" ++ escape ns ++ ":" ++ escape field ++ "\" content=\"" ++
    escape content ++ "\" />\n"

/-- StructuredProperty.__str__, parameterised by the class-level prefix and
the items() sequence: the empty-prefixed base type renders to the empty
string; otherwise one og:{prefix} line for the url, then one namespaced line
per truthy non-url field in declaration order. -/
def spRender (pfx : String) (url : Option String) (items : List (String × OGVal)) : String :=
  if pfx = "" then ""
  else
    items.foldl
      (fun acc it =>
        if it.1 = "url" then acc
        else if ogTruthy it.2 then acc ++ metaTag ("og:" ++ pfx) it.1 (ogValStr it.2)
        else acc)
      (metaTag "og" pfx (pyStrOpt url))

/-- schemas.StructuredProperty (the base type, class prefix empty). -/
structure StructuredProperty where
  type : Option String := none
  url : Option String := none
  secure_url : Option String := none
deriving DecidableEq

/-- dataclasses.fields iteration for StructuredProperty. -/
def StructuredProperty.items (sp : StructuredProperty) : List (String × OGVal) :=
  [("type", ogvS sp.type), ("url", ogvS sp.url), ("secure_url", ogvS sp.secure_url)]

/-- Constructing a StructuredProperty: the generated __init__ stores the
fields, then __post_init__ validates url and secure_url. -/
def StructuredProperty.init (type url secure_url : Option String) :
    Except String StructuredProperty :=
  match initOpt url with
  | Except.error e => Except.error e
  | Except.ok u =>
    match initOpt secure_url with
    | Except.error e => Except.error e
    | Except.ok su => Except.ok ⟨type, u, su⟩

/-- StructuredProperty.__str__ (class prefix is the empty string). -/
def StructuredProperty.render (sp : StructuredProperty) : String :=
  spRender "" sp.url sp.items

/-- Exceptions raised by embedded Python attribute access. -/
inductive PyExc where
  | attributeError (msg : String)
deriving DecidableEq

/-- StructuredProperty.get_absolute_url evaluates `self.url.path`.  After
__post_init__ the url field holds `None` or a str; neither type has a path
attribute (that attribute lives on urllib.parse.ParseResult, which is not
what is stored), so the access raises AttributeError in both cases. -/
def StructuredProperty.get_absolute_url (sp : StructuredProperty) : Except PyExc String :=
  match sp.url with
  | none => Except.error (.attributeError "NoneType object has no attribute path")
  | some _ => Except.error (.attributeError "str object has no attribute path")

----------------------------------------------------------------------------------
-- Audio / Video / Image structured properties
----------------------------------------------------------------------------------

/-- schemas.AudioProp (class prefix audio). -/
structure AudioProp where
  type : Option String := none
  url : Option String := none
  secure_url : Option String := none
deriving DecidableEq

/-- dataclasses.fields iteration for AudioProp. -/
def AudioProp.items (a : AudioProp) : List (String × OGVal) :=
  [("type", ogvS a.type), ("url", ogvS a.url), ("secure_url", ogvS a.secure_url)]

/-- Constructing an AudioProp (inherits StructuredProperty.__post_init__). -/
def AudioProp.init (type url secure_url : Option String) : Except String AudioProp :=
  match initOpt url with
  | Except.error e => Except.error e
  | Except.ok u =>
    match initOpt secure_url with
    | Except.error e => Except.error e
    | Except.ok su => Except.ok ⟨type, u, su⟩

/-- AudioProp.__str__. -/
def AudioProp.render (a : AudioProp) : String := spRender "audio" a.url a.items

/-- schemas.VideoProp (class prefix video; adds width and height). -/
structure VideoProp where
  type : Option String := none
  url : Option String := none
  secure_url : Option String := none
  width : Option Int := none
  height : Option Int := none
deriving DecidableEq

/-- dataclasses.fields iteration for VideoProp (base fields first). -/
def VideoProp.items (v : VideoProp) : List (String × OGVal) :=
  [("type", ogvS v.type), ("url", ogvS v.url), ("secure_url", ogvS v.secure_url),
   ("width", ogvI v.width), ("height", ogvI v.height)]

/-- Constructing a VideoProp (inherits StructuredProperty.__post_init__). -/
def VideoProp.init (type url secure_url : Option String) (width height : Option Int) :
    Except String VideoProp :=
  match initOpt url with
  | Except.error e => Except.error e
  | Except.ok u =>
    match initOpt secure_url with
    | Except.error e => Except.error e
    | Except.ok su => Except.ok ⟨type, u, su, width, height⟩

/-- VideoProp.__str__. -/
def VideoProp.render (v : VideoProp) : String := spRender "video" v.url v.items

/-- schemas.ImageProp (class prefix image; extends VideoProp with alt). -/
structure ImageProp where
  type : Option String := none
  url : Option String := none
  secure_url : Option String := none
  width : Option Int := none
  height : Option Int := none
  alt : Option String := none
deriving DecidableEq

/-- dataclasses.fields iteration for ImageProp. -/
def ImageProp.items (i : ImageProp) : List (String × OGVal) :=
  [("type", ogvS i.type), ("url", ogvS i.url), ("secure_url", ogvS i.secure_url),
   ("width", ogvI i.width), ("height", ogvI i.height), ("alt", ogvS i.alt)]

/-- Constructing an ImageProp (inherits StructuredProperty.__post_init__). -/
def ImageProp.init (type url secure_url : Option String) (width height : Option Int)
    (alt : Option String) : Except String ImageProp :=
  match initOpt url with
  | Except.error e => Except.error e
  | Except.ok u =>
    match initOpt secure_url with
    | Except.error e => Except.error e
    | Except.ok su => Except.ok ⟨type, u, su, width, height, alt⟩

/-- ImageProp.__str__. -/
def ImageProp.render (i : ImageProp) : String := spRender "image" i.url i.items

----------------------------------------------------------------------------------
-- OpenGraph objects
----------------------------------------------------------------------------------

/-- A value that in the Python source may be either a plain str or a Django
model instance (whose str() is its display string). -/
inductive StrOrModel where
  | s (v : String)
  | m (display : String)
deriving DecidableEq

/-- str() of a str-or-model value. -/
def strOfSM : StrOrModel → String
  | .s v => v
  | .m d => d

/-- Whether the value is a plain Python str (not a model instance). -/
def StrOrModel.isStr : StrOrModel → Bool
  | .s _ => true
  | .m _ => false

/-- The isinstance(x, models.Model) coercion `x = str(x)`. -/
def smCoerce : StrOrModel → StrOrModel
  | .s v => .s v
  | .m d => .s d

/-- repr() of a str-or-model entry as used by str() on a list.  repr of a
plain string chooses a quote character and escapes the backslash, the quote
and control characters; a Django model reprs as its class name and display
string in angle brackets (the class name is not tracked by this embedding,
which writes Model). -/
def pyReprSM : StrOrModel → String
  | .s v =>
    let q : Char := if v.data.contains squote && !(v.data.contains '"') then '"' else squote
    let esc : Char → String := fun c =>
      if c = '\\' then "\\\\"
      else if c = q then "\\" ++ String.singleton q
      else if c = '\n' then "\\n"
      else if c = '\r' then "\\r"
      else if c = '\t' then "\\t"
      else if c.toNat < 32 || c.toNat = 127 then "\\x" ++ hex2 c.toNat
      else String.singleton c
    String.singleton q ++ v.data.foldl (fun acc c => acc ++ esc c) "" ++ String.singleton q
  | .m d => "<Model: " ++ d ++ ">"

/-- str() of a Python list of str-or-model entries. -/
def pyListRepr (l : List StrOrModel) : String :=
  "[" ++ String.intercalate ", " (l.map pyReprSM) ++ "]"

/-- A value that in the Python source may be a str, a datetime.date, or a
datetime.datetime (datetime is a subclass of date). -/
inductive PyDateLike where
  | s (v : String)
  | d (y m day : Nat)
  | dt (y m day h mi sec mic : Nat)
deriving DecidableEq

/-- The `if isinstance(val, date): val = val.isoformat()` normalization of
the __post_init__ bodies; a str passes through unchanged. -/
def dateNorm : PyDateLike → PyDateLike
  | .s v => .s v
  | .d y m day => .s (isoDate y m day)
  | .dt y m day h mi sec mic => .s (isoDateTime y m day h mi sec mic)

/-- str() of a date-like value, as format_html would render it (str of a
datetime uses a space separator; unreachable after normalization). -/
def pdlStr : PyDateLike → String
  | .s v => v
  | .d y m day => isoDate y m day
  | .dt y m day h mi sec mic => strDateTime y m day h mi sec mic

/-- The image argument of the OpenGraph constructor: absent, a bare
ImageProp, or a list of ImageProps. -/
inductive ImageArg where
  | noneA
  | one (i : ImageProp)
  | many (l : List ImageProp)
deriving DecidableEq

/-- OpenGraph.__post_init__ image normalization: a bare ImageProp becomes a
single-element list. -/
def normImage : ImageArg → Option (List ImageProp)
  | .noneA => none
  | .one i => some [i]
  | .many l => some l

/-- schemas.OpenGraph after construction. -/
structure OpenGraph where
  title : String
  url : Option String := none
  type : String := "website"
  image : Option (List ImageProp) := none
  description : Option String := none
  determiner : Option String := none
  locale : Option String := none
  site_name : Option String := none
deriving DecidableEq

/-- Caller-supplied arguments of the OpenGraph constructor. -/
structure OpenGraphArgs where
  title : String
  url : Option String := none
  type : String := "website"
  image : ImageArg := .noneA
  description : Option String := none
  determiner : Option String := none
  locale : Option String := none
  site_name : Option String := none
deriving DecidableEq

/-- Constructing an OpenGraph: __post_init__ validates url and normalizes
the image field to a list. -/
def OpenGraph.init (a : OpenGraphArgs) : Except String OpenGraph :=
  match initOpt a.url with
  | Except.error e => Except.error e
  | Except.ok u =>
    Except.ok ⟨a.title, u, a.type, normImage a.image,
               a.description, a.determiner, a.locale, a.site_name⟩

/-- Emit a basic og meta tag when the value is truthy (the
`elif content and attr in basic_attrs` branch). -/
def ogBasicTag (field v : String) : String :=
  if v = "" then "" else metaTag "og" field v

/-- The optional-field form of `ogBasicTag` (None is skipped earlier by the
`content is None` test). -/
def ogBasicTagOpt (field : String) : Option String → String
  | none => ""
  | some v => ogBasicTag field v

/-- OpenGraph.__str__.  The og:url line comes first; the loop then visits
the fields of the concrete instance in declaration order, but every branch
filters on a fixed name set (image lists, locale_alternate, and the six
basic attrs), and no subclass of OpenGraph declares a field named in those
sets, so the output depends only on the eight base fields.  The instance has
no locale_alternate field, so that branch is dead. -/
def ogBaseRender (title : String) (url : Option String) (ty : String)
    (image : Option (List ImageProp))
    (description determiner locale site_name : Option String) : String :=
  metaTag "og" "url" (pyStrOpt url) ++
  ogBasicTag "title" title ++
  ogBasicTag "type" ty ++
  (match image with
   | none => ""
   | some l => String.join (l.map ImageProp.render)) ++
  ogBasicTagOpt "description" description ++
  ogBasicTagOpt "determiner" determiner ++
  ogBasicTagOpt "locale" locale ++
  ogBasicTagOpt "site_name" site_name

/-- OpenGraph.__str__ on an OpenGraph instance. -/
def OpenGraph.render (og : OpenGraph) : String :=
  ogBaseRender og.title og.url og.type og.image
    og.description og.determiner og.locale og.site_name

----------------------------------------------------------------------------------
-- OGArticle
----------------------------------------------------------------------------------

/-- schemas.OGArticle after construction.  The Python field named section is
called sectionField here because section is a Lean keyword. -/
structure OGArticle where
  title : String
  url : Option String := none
  type : String := "website"
  image : Option (List ImageProp) := none
  description : Option String := none
  determiner : Option String := none
  locale : Option String := none
  site_name : Option String := none
  published_time : Option PyDateLike := none
  modified_time : Option PyDateLike := none
  expiration_time : Option PyDateLike := none
  sectionField : Option StrOrModel := none
  author : Option (List StrOrModel) := none
  tag : Option (List String) := none
deriving DecidableEq

/-- Caller-supplied arguments of the OGArticle constructor. -/
structure OGArticleArgs where
  title : String
  url : Option String := none
  type : String := "website"
  image : ImageArg := .noneA
  description : Option String := none
  determiner : Option String := none
  locale : Option String := none
  site_name : Option String := none
  published_time : Option PyDateLike := none
  modified_time : Option PyDateLike := none
  expiration_time : Option PyDateLike := none
  sectionField : Option StrOrModel := none
  author : Option (List StrOrModel) := none
  tag : Option (List String) := none
deriving DecidableEq

/-- Constructing an OGArticle: OpenGraph.__post_init__ runs first (url
validation, image normalization), then the type is forced to article, a
model-instance section is coerced to its string, and the three time fields
are normalized to ISO-8601 strings when they hold date or datetime values.
The author list is left untouched. -/
def OGArticle.init (a : OGArticleArgs) : Except String OGArticle :=
  match initOpt a.url with
  | Except.error e => Except.error e
  | Except.ok u =>
    Except.ok ⟨a.title, u, "article", normImage a.image,
               a.description, a.determiner, a.locale, a.site_name,
               a.published_time.map dateNorm, a.modified_time.map dateNorm,
               a.expiration_time.map dateNorm, a.sectionField.map smCoerce,
               a.author, a.tag⟩

/-- Emit one namespaced tag for a present scalar field of a subtype loop
(the loops skip None only, with no truthiness test). -/
def subTagOpt (pfx field : String) : Option String → String
  | none => ""
  | some v => metaTag pfx field v

/-- OGArticle.__str__: the parent renderer first, then, in field order, one
article tag per present scalar in article_props and one tag per entry of
the author and tag lists.  The base fields fall through every branch of
this loop (none is named in article_props or in the author/tag pair). -/
def OGArticle.render (a : OGArticle) : String :=
  ogBaseRender a.title a.url a.type a.image
    a.description a.determiner a.locale a.site_name ++
  subTagOpt "article" "published_time" (a.published_time.map pdlStr) ++
  subTagOpt "article" "modified_time" (a.modified_time.map pdlStr) ++
  subTagOpt "article" "expiration_time" (a.expiration_time.map pdlStr) ++
  subTagOpt "article" "section" (a.sectionField.map strOfSM) ++
  (match a.author with
   | none => ""
   | some l => String.join (l.map (fun e => metaTag "article" "author" (strOfSM e)))) ++
  (match a.tag with
   | none => ""
   | some l => String.join (l.map (fun t => metaTag "article" "tag" t)))

----------------------------------------------------------------------------------
-- OGBook
----------------------------------------------------------------------------------

/-- schemas.OGBook after construction. -/
structure OGBook where
  title : String
  url : Option String := none
  type : String := "website"
  image : Option (List ImageProp) := none
  description : Option String := none
  determiner : Option String := none
  locale : Option String := none
  site_name : Option String := none
  isbn : Option String := none
  release_date : Option PyDateLike := none
  author : Option (List StrOrModel) := none
  tag : Option (List String) := none
deriving DecidableEq

/-- Caller-supplied arguments of the OGBook constructor. -/
structure OGBookArgs where
  title : String
  url : Option String := none
  type : String := "website"
  image : ImageArg := .noneA
  description : Option String := none
  determiner : Option String := none
  locale : Option String := none
  site_name : Option String := none
  isbn : Option String := none
  release_date : Option PyDateLike := none
  author : Option (List StrOrModel) := none
  tag : Option (List String) := none
deriving DecidableEq

/-- OGBook.__post_init__ author handling: the isinstance(models.Model) arm
cannot fire on a list value, so a truthy (non-empty) author list has each
entry coerced with str(), and an empty list is left unchanged. -/
def bookAuthorNorm : Option (List StrOrModel) → Option (List StrOrModel)
  | none => none
  | some l => if l.isEmpty then some l else some (l.map smCoerce)

/-- Constructing an OGBook: OpenGraph.__post_init__ first, then the type is
forced to book, the author list is coerced to strings, and release_date is
normalized to an ISO-8601 string when it holds a date or datetime. -/
def OGBook.init (a : OGBookArgs) : Except String OGBook :=
  match initOpt a.url with
  | Except.error e => Except.error e
  | Except.ok u =>
    Except.ok ⟨a.title, u, "book", normImage a.image,
               a.description, a.determiner, a.locale, a.site_name,
               a.isbn, a.release_date.map dateNorm, bookAuthorNorm a.author, a.tag⟩

/-- OGBook.__str__: the parent renderer first, then the subtype loop.  The
name author appears in book_props, so a present author list is caught by the
scalar branch and rendered as one tag whose content is str() of the whole
list; the later per-entry branch is unreachable for author.  The tag list is
rendered one tag per entry.  Base fields fall through every branch. -/
def OGBook.render (b : OGBook) : String :=
  ogBaseRender b.title b.url b.type b.image
    b.description b.determiner b.locale b.site_name ++
  subTagOpt "book" "isbn" b.isbn ++
  subTagOpt "book" "release_date" (b.release_date.map pdlStr) ++
  (match b.author with
   | none => ""
   | some l => metaTag "book" "author" (pyListRepr l)) ++
  (match b.tag with
   | none => ""
   | some l => String.join (l.map (fun t => metaTag "book" "tag" t)))

----------------------------------------------------------------------------------
-- OGProfile
----------------------------------------------------------------------------------

/-- schemas.OGGender. -/
inductive OGGender where
  | male
  | female
deriving DecidableEq

/-- str() of an OGGender member (a plain Python Enum stringifies as
ClassName.member). -/
def genderStr : OGGender → String
  | .male => "OGGender.male"
  | .female => "OGGender.female"

/-- schemas.OGProfile after construction. -/
structure OGProfile where
  title : String
  url : Option String := none
  type : String := "website"
  image : Option (List ImageProp) := none
  description : Option String := none
  determiner : Option String := none
  locale : Option String := none
  site_name : Option String := none
  first_name : Option String := none
  last_name : Option String := none
  username : Option String := none
  gender : Option OGGender := none
deriving DecidableEq

/-- Caller-supplied arguments of the OGProfile constructor. -/
structure OGProfileArgs where
  title : String
  url : Option String := none
  type : String := "website"
  image : ImageArg := .noneA
  description : Option String := none
  determiner : Option String := none
  locale : Option String := none
  site_name : Option String := none
  first_name : Option String := none
  last_name : Option String := none
  username : Option String := none
  gender : Option OGGender := none
deriving DecidableEq

/-- Constructing an OGProfile: OpenGraph.__post_init__ first, then the type
is forced to profile. -/
def OGProfile.init (a : OGProfileArgs) : Except String OGProfile :=
  match initOpt a.url with
  | Except.error e => Except.error e
  | Except.ok u =>
    Except.ok ⟨a.title, u, "profile", normImage a.image,
               a.description, a.determiner, a.locale, a.site_name,
               a.first_name, a.last_name, a.username, a.gender⟩

/-- The profile loop tests truthiness (`if content and attr in
profile_props`), so empty strings are skipped, unlike the None-only tests
of the article and book loops. -/
def profileTagOpt (field : String) : Option String → String
  | none => ""
  | some v => if v = "" then "" else metaTag "profile" field v

/-- OGProfile.__str__: the parent renderer, then one profile tag per truthy
field of first_name/last_name/username/gender.  Base fields fall through
(none is named in profile_props). -/
def OGProfile.render (p : OGProfile) : String :=
  ogBaseRender p.title p.url p.type p.image
    p.description p.determiner p.locale p.site_name ++
  profileTagOpt "first_name" p.first_name ++
  profileTagOpt "last_name" p.last_name ++
  profileTagOpt "username" p.username ++
  profileTagOpt "gender" (p.gender.map genderStr)

----------------------------------------------------------------------------------
-- Schema.org objects
----------------------------------------------------------------------------------

/-- commoncontent.common.Status (a Django TextChoices enumeration). -/
inductive Status where
  | withheld
  | usable
  | cancelled
deriving DecidableEq

/-- str() of a Status member (TextChoices stringifies as its value). -/
def statusStr : Status → String
  | .withheld => "withheld"
  | .usable => "usable"
  | .cancelled => "cancelled"

/-- A field value of a schema object as seen by SchemaBase.safe_dict: a
plain value stringified by strip_tags, or a nested SchemaBase object
(a label together with its own field values). -/
inductive SVal where
  | str (v : String)
  | status (st : Status)
  | obj (label : String) (fields : List (String × Option SVal))

/-- A JSON value produced by safe_dict: a string or an object whose keys
keep insertion order. -/
inductive JVal where
  | s (v : String)
  | o (fields : List (String × JVal))

mutual

/-- SchemaBase.safe_dict on one value: nested schema objects recurse via
their own safe_dict (appending @context and @type after the fields), other
values are tag-stripped then HTML-escaped. -/
def svalSafe : SVal → JVal
  | .str v => JVal.s (escape (strip_tags v))
  | .status st => JVal.s (escape (strip_tags (statusStr st)))
  | .obj label fields =>
    JVal.o (fieldsSafe fields ++
            [("@context", JVal.s "https://schema.org"), ("@type", JVal.s label)])

/-- The field loop of safe_dict: None values are dropped, the rest are
converted in declaration order. -/
def fieldsSafe : List (String × Option SVal) → List (String × JVal)
  | [] => []
  | (_, none) :: rest => fieldsSafe rest
  | (k, some v) :: rest => (k, svalSafe v) :: fieldsSafe rest

end

/-- json.dumps escaping of one character inside a JSON string
(ensure_ascii, so non-ASCII characters become backslash-u escapes, with
surrogate pairs above the basic plane). -/
def jsonEscapeChar (c : Char) : String :=
  if c = '"' then "\\\""
  else if c = '\\' then "\\\\"
  else if c = '\n' then "\\n"
  else if c = '\r' then "\\r"
  else if c = '\t' then "\\t"
  else if c.toNat = 8 then "\\b"
  else if c.toNat = 12 then "\\f"
  else if c.toNat < 32 then "\\u" ++ hex4 c.toNat
  else if c.toNat < 127 then String.singleton c
  else if c.toNat < 65536 then "\\u" ++ hex4 c.toNat
  else
    let v := c.toNat - 65536
    "\\u" ++ hex4 (55296 + v / 1024) ++ "\\u" ++ hex4 (56320 + v % 1024)

/-- A JSON string literal as json.dumps writes it. -/
def jsonQuote (s : String) : String :=
  "\"" ++ s.data.foldl (fun acc c => acc ++ jsonEscapeChar c) "" ++ "\""

mutual

/-- json.dumps with its default separators. -/
def jsonDump : JVal → String
  | .s v => jsonQuote v
  | .o fields => "\x7b" ++ String.intercalate ", " (jsonDumpFields fields) ++ "\x7d"

/-- The key-value pairs of a JSON object. -/
def jsonDumpFields : List (String × JVal) → List String
  | [] => []
  | (k, v) :: rest => (jsonQuote k ++ ": " ++ jsonDump v) :: jsonDumpFields rest

end

/-- The character translation django.utils.html.json_script applies to the
dumped JSON before embedding it. -/
def jsonScriptEscapeChar (c : Char) : String :=
  if c = '<' then "\\u003C"
  else if c = '>' then "\\u003E"
  else if c = '&' then "\\u0026"
  else String.singleton c

/-- ThingSchema.__str__: json_script(safe_dict, element_id schema-data)
followed by the replace of application/json with application/ld+json
(str.replace rewrites every occurrence). -/
def thingStrOf (j : JVal) : String :=
  let dumped := (jsonDump j).data.foldl (fun acc c => acc ++ jsonScriptEscapeChar c) ""
  ("<script id=\"schema-data\" type=\"application/json\">" ++ dumped ++ "</script>").replace
    "application/json" "application/ld+json"

/-- schemas.ThingSchema after construction. -/
structure ThingSchema where
  name : Option String := none
  description : Option String := none
  url : Option String := none
  image : Option SVal := none

/-- Constructing a ThingSchema: __post_init__ validates a truthy url. -/
def ThingSchema.init (name description url : Option String) (image : Option SVal) :
    Except String ThingSchema :=
  match initOpt url with
  | Except.error e => Except.error e
  | Except.ok u =>
    Except.ok ⟨name, description, u, image⟩

/-- The dataclasses.fields sequence of a ThingSchema as safe_dict sees it. -/
def ThingSchema.asSVal (t : ThingSchema) : SVal :=
  .obj "Thing"
    [("name", t.name.map SVal.str), ("description", t.description.map SVal.str),
     ("url", t.url.map SVal.str), ("image", t.image)]

/-- ThingSchema.__str__. -/
def ThingSchema.render (t : ThingSchema) : String := thingStrOf (svalSafe t.asSVal)

/-- schemas.CreativeWorkSchema after construction.  Its __post_init__ does
not call the parent initializer, so the url field is NOT validated here;
construction cannot fail. -/
structure CreativeWorkSchema where
  name : Option String := none
  description : Option String := none
  url : Option String := none
  image : Option SVal := none
  abstract : Option String := none
  author : Option StrOrModel := none
  copyrightHolder : Option String := none
  copyrightNotice : Option String := none
  copyrightYear : Option String := none
  creativeWorkStatus : Option Status := none
  dateCreated : Option PyDateLike := none
  datePublished : Option PyDateLike := none
  dateModified : Option PyDateLike := none
  expires : Option PyDateLike := none
  headline : Option String := none
  keywords : Option String := none

/-- Caller-supplied arguments of the CreativeWorkSchema constructor. -/
structure CreativeWorkArgs where
  name : Option String := none
  description : Option String := none
  url : Option String := none
  image : Option SVal := none
  abstract : Option String := none
  author : Option StrOrModel := none
  copyrightHolder : Option String := none
  copyrightNotice : Option String := none
  copyrightYear : Option String := none
  creativeWorkStatus : Option Status := none
  dateCreated : Option PyDateLike := none
  datePublished : Option PyDateLike := none
  dateModified : Option PyDateLike := none
  expires : Option PyDateLike := none
  headline : Option String := none
  keywords : Option String := none

/-- Constructing a CreativeWorkSchema: its __post_init__ normalizes
datePublished, dateModified and expires to ISO-8601 strings when they hold
date or datetime values (dateCreated is not normalized), and coerces a
model-instance author to its string.  It does not invoke the ThingSchema
initializer, so nothing is validated and no error can be raised. -/
def CreativeWorkSchema.init (a : CreativeWorkArgs) : CreativeWorkSchema :=
  ⟨a.name, a.description, a.url, a.image, a.abstract, a.author.map smCoerce,
   a.copyrightHolder, a.copyrightNotice, a.copyrightYear, a.creativeWorkStatus,
   a.dateCreated, a.datePublished.map dateNorm, a.dateModified.map dateNorm,
   a.expires.map dateNorm, a.headline, a.keywords⟩

/-- The dataclasses.fields sequence of a CreativeWorkSchema (base fields
first) as safe_dict sees it. -/
def CreativeWorkSchema.asSVal (c : CreativeWorkSchema) : SVal :=
  .obj "CreativeWork"
    [("name", c.name.map SVal.str), ("description", c.description.map SVal.str),
     ("url", c.url.map SVal.str), ("image", c.image),
     ("abstract", c.abstract.map SVal.str),
     ("author", c.author.map (fun v => SVal.str (strOfSM v))),
     ("copyrightHolder", c.copyrightHolder.map SVal.str),
     ("copyrightNotice", c.copyrightNotice.map SVal.str),
     ("copyrightYear", c.copyrightYear.map SVal.str),
     ("creativeWorkStatus", c.creativeWorkStatus.map SVal.status),
     ("dateCreated", c.dateCreated.map (fun v => SVal.str (pdlStr v))),
     ("datePublished", c.datePublished.map (fun v => SVal.str (pdlStr v))),
     ("dateModified", c.dateModified.map (fun v => SVal.str (pdlStr v))),
     ("expires", c.expires.map (fun v => SVal.str (pdlStr v))),
     ("headline", c.headline.map SVal.str), ("keywords", c.keywords.map SVal.str)]

/-- CreativeWorkSchema.__str__ (inherited from ThingSchema, with this
subtype's label and fields). -/
def CreativeWorkSchema.render (c : CreativeWorkSchema) : String :=
  thingStrOf (svalSafe c.asSVal)

----------------------------------------------------------------------------------
-- The ThingSchema subclass registry
----------------------------------------------------------------------------------

/-- The classes participating in the ThingSchema label registry: the base
class and the five subclasses defined in schemas.py. -/
inductive ThingClass where
  | Thing
  | CreativeWork
  | WebPage
  | MediaObject
  | Article
  | Person
deriving DecidableEq

/-- ThingSchema._registry after module load: __init_subclass__ registers
each subclass under its label, in class-definition order.  The base class
itself never passes through __init_subclass__, so Thing is absent. -/
def thingRegistry : List (String × ThingClass) :=
  [("CreativeWork", ThingClass.CreativeWork), ("WebPage", ThingClass.WebPage),
   ("MediaObject", ThingClass.MediaObject), ("Article", ThingClass.Article),
   ("Person", ThingClass.Person)]

/-- ThingSchema.get_class_for_label: dict.get with the base class as the
default value. -/
def get_class_for_label (label : String) : ThingClass :=
  match thingRegistry.find? (fun p => p.1 = label) with
  | some p => p.2
  | none => ThingClass.Thing

----------------------------------------------------------------------------------
-- Auxiliary definitions used by the verification statements
----------------------------------------------------------------------------------

/-- Number of positions of the text at which the pattern occurs. -/
def countSub (pat : List Char) : List Char → Nat
  | [] => 0
  | c :: cs => (if listStarts pat (c :: cs) then 1 else 0) + countSub pat cs

/-- Number of positions of a string at which a substring occurs. -/
def countSubstr (pat s : String) : Nat := countSub pat.data s.data

/-- The acceptance condition of the URL validator as the specification
words it: the parsed URL has a scheme and a network location, and the
scheme starts with http. -/
def wellFormedHttpUrl (s : String) : Bool :=
  !((urlparse s).scheme = "" : Bool) && !((urlparse s).netloc = "" : Bool) &&
    pyStartsWith (urlparse s).scheme "http"

/-- A plausible host component: nonempty, with no netloc-terminating
character. -/
def hostOk (host : String) : Bool :=
  !host.data.isEmpty && host.data.all (fun c => !isNetlocStop c)

/-- A plausible remainder after the host: empty, or starting with a path,
query or fragment delimiter. -/
def restOk (rest : String) : Bool :=
  match rest.data with
  | [] => true
  | c :: _ => isNetlocStop c

/-- Render as an explicit state transformer: __str__ reads the fields and
returns a fresh string without assigning any attribute, so the embedded
step returns the instance unchanged alongside the output. -/
def StructuredProperty.renderStep (x : StructuredProperty) : String × StructuredProperty :=
  (x.render, x)

/-- AudioProp.__str__ as a state transformer (see
StructuredProperty.renderStep). -/
def AudioProp.renderStep (x : AudioProp) : String × AudioProp := (x.render, x)

/-- VideoProp.__str__ as a state transformer. -/
def VideoProp.renderStep (x : VideoProp) : String × VideoProp := (x.render, x)

/-- ImageProp.__str__ as a state transformer. -/
def ImageProp.renderStep (x : ImageProp) : String × ImageProp := (x.render, x)

/-- OpenGraph.__str__ as a state transformer. -/
def OpenGraph.renderStep (x : OpenGraph) : String × OpenGraph := (x.render, x)

/-- OGArticle.__str__ as a state transformer. -/
def OGArticle.renderStep (x : OGArticle) : String × OGArticle := (x.render, x)

/-- OGBook.__str__ as a state transformer. -/
def OGBook.renderStep (x : OGBook) : String × OGBook := (x.render, x)

/-- OGProfile.__str__ as a state transformer. -/
def OGProfile.renderStep (x : OGProfile) : String × OGProfile := (x.render, x)

/-- ThingSchema.__str__ as a state transformer. -/
def ThingSchema.renderStep (x : ThingSchema) : String × ThingSchema := (x.render, x)

/-- CreativeWorkSchema.__str__ as a state transformer. -/
def CreativeWorkSchema.renderStep (x : CreativeWorkSchema) : String × CreativeWorkSchema :=
  (x.render, x)

/-- The OGBook constructor call of the failing input: a two-author book
with two tags. -/
def bookArgs0 : OGBookArgs :=
  { title := "T", url := some "https://x.com/",
    author := some [.s "Alice", .s "Bob"], tag := some ["t1", "t2"] }

/-- The OGBook instance that the failing input constructs. -/
def book0 : OGBook :=
  { title := "T", url := some "https://x.com/", type := "book",
    author := some [.s "Alice", .s "Bob"], tag := some ["t1", "t2"] }

----------------------------------------------------------------------------------
-- Claims
----------------------------------------------------------------------------------

/-- C4: for every caller-supplied value of the type field, a successfully
constructed OGArticle has type article, an OGBook has type book, and an
OGProfile has type profile: the subtype forces its fixed value
post-construction. -/
theorem c4_type_forced :
    (∀ (a : OGArticleArgs) (art : OGArticle),
        OGArticle.init a = Except.ok art → art.type = "article") ∧
    (∀ (b : OGBookArgs) (bk : OGBook),
        OGBook.init b = Except.ok bk → bk.type = "book") ∧
    (∀ (p : OGProfileArgs) (pr : OGProfile),
        OGProfile.init p = Except.ok pr → pr.type = "profile") := by
  refine ⟨?_, ?_, ?_⟩
  · intro a art h
    unfold OGArticle.init at h
    cases hu : initOpt a.url with
    | error e => rw [hu] at h; exact absurd h (by simp)
    | ok u => rw [hu] at h; cases h; rfl
  · intro b bk h
    unfold OGBook.init at h
    cases hu : initOpt b.url with
    | error e => rw [hu] at h; exact absurd h (by simp)
    | ok u => rw [hu] at h; cases h; rfl
  · intro p pr h
    unfold OGProfile.init at h
    cases hu : initOpt p.url with
    | error e => rw [hu] at h; exact absurd h (by simp)
    | ok u => rw [hu] at h; cases h; rfl

/-- C4 witness: a caller asking for type website still obtains the forced
subtype values at a concrete input. -/
theorem c4_type_forced_witness :
    OGArticle.init { title := "T", type := "video.other" } =
      Except.ok ({ title := "T", type := "article" } : OGArticle) ∧
    ({ title := "T", type := "article" } : OGArticle).type = "article" := by
  constructor
  · rfl
  · exact c4_type_forced.1 { title := "T", type := "video.other" }
      { title := "T", type := "article" } rfl

/-- C5: registry lookup returns the registered subtype on an exact label
match, the base type for the label Thing, every registered pair resolves to
its own class, and every unregistered label resolves to the base type; the
lookup is total. -/
theorem c5_registry_lookup :
    get_class_for_label "Thing" = ThingClass.Thing ∧
    get_class_for_label "CreativeWork" = ThingClass.CreativeWork ∧
    (∀ p ∈ thingRegistry, get_class_for_label p.1 = p.2) ∧
    (∀ label, (∀ p ∈ thingRegistry, p.1 ≠ label) →
      get_class_for_label label = ThingClass.Thing) := by
  refine ⟨rfl, rfl, by decide, ?_⟩
  intro label h
  unfold get_class_for_label
  cases hf : thingRegistry.find? (fun p => p.1 = label) with
  | none => rfl
  | some p =>
    have hmem := List.mem_of_find?_eq_some hf
    have hp := List.find?_some hf
    simp at hp
    exact absurd hp (h p hmem)

/-- C5 witness: the unregistered label Organization resolves to the base
type. -/
theorem c5_registry_lookup_witness :
    get_class_for_label "Organization" = ThingClass.Thing :=
  c5_registry_lookup.2.2.2 "Organization" (by decide)

/-- C8: a StructuredProperty of the base type, whose class prefix is the
empty string, renders to the empty string whatever its fields hold. -/
theorem c8_base_renders_empty :
    ∀ sp : StructuredProperty, sp.render = "" := by
  intro sp
  rfl

/-- C9: rendering is a deterministic, mutation-free function of the
instance fields: for every metadata object of the embedded hierarchy the
render step leaves the instance unchanged, and a second render of the
resulting instance produces the same output as the first. -/
theorem c9_render_deterministic :
    (∀ x : StructuredProperty, x.renderStep.2 = x ∧ x.renderStep.1 = x.renderStep.2.renderStep.1) ∧
    (∀ x : AudioProp, x.renderStep.2 = x ∧ x.renderStep.1 = x.renderStep.2.renderStep.1) ∧
    (∀ x : VideoProp, x.renderStep.2 = x ∧ x.renderStep.1 = x.renderStep.2.renderStep.1) ∧
    (∀ x : ImageProp, x.renderStep.2 = x ∧ x.renderStep.1 = x.renderStep.2.renderStep.1) ∧
    (∀ x : OpenGraph, x.renderStep.2 = x ∧ x.renderStep.1 = x.renderStep.2.renderStep.1) ∧
    (∀ x : OGArticle, x.renderStep.2 = x ∧ x.renderStep.1 = x.renderStep.2.renderStep.1) ∧
    (∀ x : OGBook, x.renderStep.2 = x ∧ x.renderStep.1 = x.renderStep.2.renderStep.1) ∧
    (∀ x : OGProfile, x.renderStep.2 = x ∧ x.renderStep.1 = x.renderStep.2.renderStep.1) ∧
    (∀ x : ThingSchema, x.renderStep.2 = x ∧ x.renderStep.1 = x.renderStep.2.renderStep.1) ∧
    (∀ x : CreativeWorkSchema, x.renderStep.2 = x ∧ x.renderStep.1 = x.renderStep.2.renderStep.1) :=
  ⟨fun _ => ⟨rfl, rfl⟩, fun _ => ⟨rfl, rfl⟩, fun _ => ⟨rfl, rfl⟩, fun _ => ⟨rfl, rfl⟩,
   fun _ => ⟨rfl, rfl⟩, fun _ => ⟨rfl, rfl⟩, fun _ => ⟨rfl, rfl⟩, fun _ => ⟨rfl, rfl⟩,
   fun _ => ⟨rfl, rfl⟩, fun _ => ⟨rfl, rfl⟩⟩

/-- C10: on every StructuredProperty whose url field holds a string,
get_absolute_url raises AttributeError (a str has no path attribute), and
in fact it raises on every instance, never returning normally. -/
theorem c10_get_absolute_url_raises :
    (∀ (sp : StructuredProperty) (s : String), sp.url = some s →
      sp.get_absolute_url =
        Except.error (.attributeError "str object has no attribute path")) ∧
    (∀ sp : StructuredProperty, ∃ e, sp.get_absolute_url = Except.error e) := by
  constructor
  · intro sp s h
    unfold StructuredProperty.get_absolute_url
    rw [h]
  · intro sp
    unfold StructuredProperty.get_absolute_url
    cases sp.url with
    | none => exact ⟨_, rfl⟩
    | some s => exact ⟨_, rfl⟩

/-- C10 witness: a concrete validated instance with a string url raises
AttributeError from get_absolute_url. -/
theorem c10_get_absolute_url_raises_witness :
    (StructuredProperty.mk none (some "https://example.com/x") none).url =
      some "https://example.com/x" ∧
    (StructuredProperty.mk none (some "https://example.com/x") none).get_absolute_url =
      Except.error (.attributeError "str object has no attribute path") :=
  ⟨rfl, c10_get_absolute_url_raises.1
    (StructuredProperty.mk none (some "https://example.com/x") none)
    "https://example.com/x" rfl⟩

/-- C1 counterexample: constructing a StructuredProperty whose secure_url
uses the scheme http, not https, succeeds — there is no https-only second
check, so the claim that construction fails is false at this input. -/
theorem c1_counterexample :
    StructuredProperty.init none none (some "http://example.com/audio.mp3") =
      Except.ok ⟨none, none, some "http://example.com/audio.mp3"⟩ := rfl

/-- C1 amended: secure_url, when set, is validated only by the general URL
check (a parsed scheme and netloc must exist and the scheme must start with
http); any value passing that check — scheme http included — is accepted
and stored unchanged. -/
theorem c1_secure_url_general_check_only :
    ∀ v : String, pyStartsWith (urlparse v).scheme "http" = true →
      (urlparse v).scheme ≠ "" → (urlparse v).netloc ≠ "" →
      StructuredProperty.init none none (some v) =
        Except.ok ⟨none, none, some v⟩ := by
  intro v h1 h2 h3
  have hv : validate_http_url v = Except.ok v := by
    have e2 : decide ((urlparse v).scheme = "") = false := decide_eq_false h2
    have e3 : decide ((urlparse v).netloc = "") = false := decide_eq_false h3
    simp [validate_http_url, e2, e3, h1]
  have hne : v ≠ "" := by
    intro he
    subst he
    exact h2 (by decide)
  unfold StructuredProperty.init initOpt
  simp [hne, hv, Except.map]

/-- C1 witness: the amended rule applied at a concrete http secure_url. -/
theorem c1_secure_url_general_check_only_witness :
    StructuredProperty.init none none (some "http://example.com/a") =
      Except.ok ⟨none, none, some "http://example.com/a"⟩ :=
  c1_secure_url_general_check_only "http://example.com/a"
    (by decide) (by decide) (by decide)

/-- C3: evaluating OGBook construction and rendering at the failing input
(two authors, two tags): the whole author list is stringified into a single
book:author tag, instead of the one-tag-per-entry output the specification
describes, while tags do render one per entry. -/
theorem c3_book_author_single_tag :
    OGBook.init bookArgs0 = Except.ok book0 ∧
    book0.render =
      "<meta property=\"og:url\" content=\"https://x.com/\" />\n<meta property=\"og:title\" content=\"T\" />\n<meta property=\"og:type\" content=\"book\" />\n<meta property=\"book:author\" content=\"[&#x27;Alice&#x27;, &#x27;Bob&#x27;]\" />\n<meta property=\"book:tag\" content=\"t1\" />\n<meta property=\"book:tag\" content=\"t2\" />\n" ∧
    countSubstr "book:author" book0.render = 1 ∧
    countSubstr "book:tag" book0.render = 2 := by
  set_option maxRecDepth 4096 in
  refine ⟨rfl, by decide, by decide, by decide⟩

/-- C6: date and datetime values passed to the date fields of the subtype
constructors are normalized to their ISO-8601 strings by the post-init
step, with the concrete shapes the specification gives. -/
theorem c6_date_normalization :
    (∀ (a : OGArticleArgs) (art : OGArticle), OGArticle.init a = Except.ok art →
       art.published_time = a.published_time.map dateNorm ∧
       art.modified_time = a.modified_time.map dateNorm ∧
       art.expiration_time = a.expiration_time.map dateNorm) ∧
    (∀ (b : OGBookArgs) (bk : OGBook), OGBook.init b = Except.ok bk →
       bk.release_date = b.release_date.map dateNorm) ∧
    (∀ c : CreativeWorkArgs,
       (CreativeWorkSchema.init c).datePublished = c.datePublished.map dateNorm ∧
       (CreativeWorkSchema.init c).dateModified = c.dateModified.map dateNorm ∧
       (CreativeWorkSchema.init c).expires = c.expires.map dateNorm) ∧
    (∀ y m d, dateNorm (.d y m d) = .s (isoDate y m d)) ∧
    (∀ y m d h mi sec mic,
       dateNorm (.dt y m d h mi sec mic) = .s (isoDateTime y m d h mi sec mic)) ∧
    isoDateTime 2022 6 30 12 0 0 0 = "2022-06-30T12:00:00" ∧
    isoDate 2022 6 30 = "2022-06-30" := by
  refine ⟨?_, ?_, ?_, fun y m d => rfl, fun y m d h mi sec mic => rfl, by decide, by decide⟩
  · intro a art h
    unfold OGArticle.init at h
    cases hu : initOpt a.url with
    | error e => rw [hu] at h; exact absurd h (by simp)
    | ok u => rw [hu] at h; cases h; exact ⟨rfl, rfl, rfl⟩
  · intro b bk h
    unfold OGBook.init at h
    cases hu : initOpt b.url with
    | error e => rw [hu] at h; exact absurd h (by simp)
    | ok u => rw [hu] at h; cases h; rfl
  · intro c
    exact ⟨rfl, rfl, rfl⟩

/-- C6 witness: a native datetime passed as published_time is stored as the
ISO-8601 string immediately after construction. -/
theorem c6_date_normalization_witness :
    OGArticle.init { title := "T", published_time := some (.dt 2022 6 30 12 0 0 0) } =
      Except.ok ({ title := "T", type := "article",
                   published_time := some (.s "2022-06-30T12:00:00") } : OGArticle) ∧
    ({ title := "T", type := "article",
       published_time := some (.s "2022-06-30T12:00:00") } : OGArticle).published_time =
      some (.s "2022-06-30T12:00:00") := by
  refine ⟨rfl, ?_⟩
  have h := (c6_date_normalization.1
    { title := "T", published_time := some (.dt 2022 6 30 12 0 0 0) } _ rfl).1
  exact h

/-- C7 counterexample: an OGArticle constructed with an author list holding
a content-model reference succeeds, and immediately after construction the
stored entry is still the model reference, not a plain string. -/
theorem c7_counterexample :
    OGArticle.init { title := "T", author := some [StrOrModel.m "Alice Author"] } =
      Except.ok ({ title := "T", type := "article",
                   author := some [StrOrModel.m "Alice Author"] } : OGArticle) ∧
    StrOrModel.isStr (StrOrModel.m "Alice Author") = false := ⟨rfl, rfl⟩

/-- C7 amended: OGArticle coerces a model-instance section to its string at
construction but stores the author list unchanged (entries are stringified
only at render time); OGBook is the subtype that coerces author entries to
plain strings at construction. -/
theorem c7_construction_coercion :
    (∀ (a : OGArticleArgs) (art : OGArticle), OGArticle.init a = Except.ok art →
       art.sectionField = a.sectionField.map smCoerce ∧
       (∀ v ∈ art.sectionField, v.isStr = true) ∧
       art.author = a.author) ∧
    (∀ (b : OGBookArgs) (bk : OGBook), OGBook.init b = Except.ok bk →
       ∀ l, bk.author = some l → ∀ e ∈ l, e.isStr = true) := by
  constructor
  · intro a art h
    unfold OGArticle.init at h
    cases hu : initOpt a.url with
    | error e => rw [hu] at h; exact absurd h (by simp)
    | ok u =>
      rw [hu] at h
      cases h
      refine ⟨rfl, ?_, rfl⟩
      intro v hv
      cases hs : a.sectionField with
      | none => rw [hs] at hv; simp at hv
      | some sm =>
        rw [hs] at hv
        simp at hv
        subst hv
        cases sm <;> rfl
  · intro b bk h
    unfold OGBook.init at h
    cases hu : initOpt b.url with
    | error e => rw [hu] at h; exact absurd h (by simp)
    | ok u =>
      rw [hu] at h
      cases h
      intro l hl e he
      cases hb : b.author with
      | none =>
        rw [hb] at hl
        exact Option.noConfusion hl
      | some l0 =>
        rw [hb] at hl
        have hl2 : (if l0.isEmpty then some l0 else some (l0.map smCoerce)) = some l := hl
        by_cases hem : l0.isEmpty
        · rw [if_pos hem] at hl2
          cases hl2
          rw [List.isEmpty_iff] at hem
          subst hem
          simp at he
        · rw [if_neg hem] at hl2
          cases hl2
          rcases List.mem_map.mp he with ⟨x, _, hx⟩
          subst hx
          cases x <;> rfl

/-- C7 witness: the amended rule at a concrete input — a model section is
stored as its display string. -/
theorem c7_construction_coercion_witness :
    OGArticle.init { title := "T", sectionField := some (.m "News") } =
      Except.ok ({ title := "T", type := "article",
                   sectionField := some (.s "News") } : OGArticle) ∧
    (∀ v ∈ ({ title := "T", type := "article",
              sectionField := some (.s "News") } : OGArticle).sectionField,
       v.isStr = true) := by
  refine ⟨rfl, ?_⟩
  have h := (c7_construction_coercion.1
    { title := "T", sectionField := some (.m "News") } _ rfl).2.1
  simpa using h

/-- Splitting at the first colon of a list built as colon-free text, a
colon, and a remainder recovers exactly those parts. -/
theorem upToColon_concat (l1 l2 : List Char) (h : ∀ c ∈ l1, c ≠ ':') :
    upToColon (l1 ++ ':' :: l2) = some (l1, l2) := by
  induction l1 with
  | nil => rfl
  | cons c cs ih =>
    have hc : c ≠ ':' := h c (by simp)
    rw [List.cons_append, upToColon, if_neg hc,
        ih (fun x hx => h x (by simp [hx]))]

/-- takeWhile and dropWhile across a concatenation whose first part wholly
satisfies the predicate and whose second part starts with a failing
character (or is empty). -/
theorem takeDropWhile_concat (p : Char → Bool) (l1 l2 : List Char)
    (h1 : ∀ c ∈ l1, p c = true)
    (h2 : ∀ c cs, l2 = c :: cs → p c = false) :
    (l1 ++ l2).takeWhile p = l1 ∧ (l1 ++ l2).dropWhile p = l2 := by
  induction l1 with
  | nil =>
    simp only [List.nil_append]
    cases l2 with
    | nil => exact ⟨rfl, rfl⟩
    | cons c cs =>
      have hp := h2 c cs rfl
      rw [List.takeWhile_cons, List.dropWhile_cons, hp]
      exact ⟨rfl, rfl⟩
  | cons a l1 ih =>
    have hpa := h1 a (by simp)
    have ih2 := ih (fun c hc => h1 c (by simp [hc]))
    rw [List.cons_append, List.takeWhile_cons, List.dropWhile_cons, hpa]
    simp only [if_true]
    exact ⟨by rw [ih2.1], by rw [ih2.2]⟩

/-- urlparse of a URL assembled from a scheme (colon-free, alphabetic head,
scheme characters only, already lowercase), the double slash, a host free
of netloc terminators, and a remainder that is empty or starts with a
terminator, recovers the scheme and the host. -/
theorem urlparse_concat (sch host rest : String)
    (h1 : sch.data ≠ [])
    (h2 : ∀ c cs, sch.data = c :: cs → c.isAlpha = true)
    (h3 : sch.data.all isSchemeChar = true)
    (h4 : sch.data.map Char.toLower = sch.data)
    (hh : hostOk host = true) (hr : restOk rest = true) :
    urlparse (sch ++ "://" ++ host ++ rest) = ⟨sch, host⟩ := by
  have hd : (sch ++ "://" ++ host ++ rest).data
      = sch.data ++ ':' :: '/' :: '/' :: (host.data ++ rest.data) := by
    rw [String.data_append, String.data_append, String.data_append,
        List.append_assoc, List.append_assoc]
    rfl
  have hcolfree : ∀ c ∈ sch.data, c ≠ ':' := by
    intro c hc he
    have hkind := List.all_eq_true.mp h3 c hc
    rw [he] at hkind
    exact absurd hkind (by decide)
  have hsplit : splitScheme (sch.data ++ ':' :: '/' :: '/' :: (host.data ++ rest.data))
      = (sch.data, '/' :: '/' :: (host.data ++ rest.data)) := by
    unfold splitScheme
    rw [upToColon_concat _ _ hcolfree]
    cases hsd : sch.data with
    | nil => exact absurd hsd h1
    | cons c cs =>
      have ha := h2 c cs hsd
      have hall : (c :: cs).all isSchemeChar = true := by rw [← hsd]; exact h3
      simp only [ha, hall, Bool.and_self, if_true]
      rw [← hsd, h4]
  have hhost : ∀ c ∈ host.data, (fun c => !isNetlocStop c) c = true := by
    intro c hc
    have hh2 : (!host.data.isEmpty && host.data.all fun c => !isNetlocStop c) = true := hh
    rw [Bool.and_eq_true] at hh2
    exact List.all_eq_true.mp hh2.2 c hc
  have hrest : ∀ c cs, rest.data = c :: cs → (fun c => !isNetlocStop c) c = false := by
    intro c cs hcs
    have hr2 : isNetlocStop c = true := by
      have hr3 : (match rest.data with | [] => true | c :: _ => isNetlocStop c) = true := hr
      rw [hcs] at hr3
      exact hr3
    simp only [hr2, Bool.not_true]
  have htd := takeDropWhile_concat (fun c => !isNetlocStop c) host.data rest.data hhost hrest
  have hnet : splitNetloc ('/' :: '/' :: (host.data ++ rest.data))
      = (host.data, rest.data) := by
    have hstep : splitNetloc ('/' :: '/' :: (host.data ++ rest.data))
        = (List.takeWhile (fun c => !isNetlocStop c) (host.data ++ rest.data),
           List.dropWhile (fun c => !isNetlocStop c) (host.data ++ rest.data)) := rfl
    rw [hstep, htd.1, htd.2]
  unfold urlparse
  rw [hd, hsplit]
  simp only [hnet]

/-- An acceptable host is a nonempty string. -/
theorem hostOk_ne_empty (host : String) (hh : hostOk host = true) : host ≠ "" := by
  intro he
  rw [he] at hh
  exact absurd hh (by decide)

/-- The scheme text http satisfies the side conditions of urlparse_concat. -/
theorem http_scheme_head :
    ∀ (c : Char) (cs : List Char), ("http" : String).data = c :: cs → c.isAlpha = true := by
  intro c cs h
  have h2 : ('h' :: 't' :: 't' :: 'p' :: []) = c :: cs := h
  injection h2 with e1 _
  rw [← e1]
  decide

/-- The scheme text https satisfies the side conditions of urlparse_concat. -/
theorem https_scheme_head :
    ∀ (c : Char) (cs : List Char), ("https" : String).data = c :: cs → c.isAlpha = true := by
  intro c cs h
  have h2 : ('h' :: 't' :: 't' :: 'p' :: 's' :: []) = c :: cs := h
  injection h2 with e1 _
  rw [← e1]
  decide

/-- C2: the URL validator returns its input unchanged whenever it succeeds;
it succeeds exactly when the parsed URL has a scheme and a network location
and the scheme starts with http; it fails with an error on every other
string; and every absolute URL assembled from the scheme http or https, a
host, and a path/query/fragment remainder is accepted unchanged. -/
theorem c2_url_validator :
    (∀ s r, validate_http_url s = Except.ok r → r = s) ∧
    (∀ s, validate_http_url s = Except.ok s ↔ wellFormedHttpUrl s = true) ∧
    (∀ s, wellFormedHttpUrl s = false → ∃ e, validate_http_url s = Except.error e) ∧
    (∀ host rest, hostOk host = true → restOk rest = true →
       validate_http_url ("http://" ++ host ++ rest) =
         Except.ok ("http://" ++ host ++ rest) ∧
       validate_http_url ("https://" ++ host ++ rest) =
         Except.ok ("https://" ++ host ++ rest)) := by
  refine ⟨?_, ?_, ?_, ?_⟩
  · intro s r h
    unfold validate_http_url at h
    split at h
    · exact absurd h (by simp)
    · split at h
      · exact absurd h (by simp)
      · exact (Except.ok.inj h).symm
  · intro s
    constructor
    · intro h
      unfold validate_http_url at h
      split at h
      · exact absurd h (by simp)
      · split at h
        · exact absurd h (by simp)
        · rename_i hc1 hc2
          unfold wellFormedHttpUrl
          simp only [Bool.or_eq_true, decide_eq_true_eq, not_or] at hc1
          simp only [Bool.not_eq_true', Bool.not_eq_false] at hc2
          simp only [Bool.and_eq_true, Bool.not_eq_true', decide_eq_false_iff_not]
          exact ⟨⟨hc1.1, hc1.2⟩, hc2⟩
    · intro h
      unfold wellFormedHttpUrl at h
      simp only [Bool.and_eq_true, Bool.not_eq_true', decide_eq_false_iff_not] at h
      unfold validate_http_url
      rw [if_neg, if_neg]
      · simp only [h.2, Bool.not_true, Bool.false_eq_true, not_false_eq_true]
      · simp only [Bool.or_eq_true, decide_eq_true_eq, not_or]
        exact ⟨h.1.1, h.1.2⟩
  · intro s h
    unfold wellFormedHttpUrl at h
    unfold validate_http_url
    by_cases h1 : (urlparse s).scheme = ""
    · rw [if_pos (by simp [h1])]
      exact ⟨_, rfl⟩
    · by_cases h2 : (urlparse s).netloc = ""
      · rw [if_pos (by simp [h2])]
        exact ⟨_, rfl⟩
      · by_cases h3 : pyStartsWith (urlparse s).scheme "http" = true
        · exfalso
          rw [Bool.eq_false_iff] at h
          exact h (by simp [h1, h2, h3])
        · rw [if_neg (by simp [h1, h2]), if_pos (by simp [h3])]
          exact ⟨_, rfl⟩
  · intro host rest hh hr
    have hne := hostOk_ne_empty host hh
    have hp1 := urlparse_concat "http" host rest (by decide) http_scheme_head
      (by decide) (by decide) hh hr
    have hp2 := urlparse_concat "https" host rest (by decide) https_scheme_head
      (by decide) (by decide) hh hr
    have e1 : ("http" ++ "://" : String) = "http://" := rfl
    have e2 : ("https" ++ "://" : String) = "https://" := rfl
    rw [e1] at hp1
    rw [e2] at hp2
    constructor
    · unfold validate_http_url
      rw [hp1]
      have hps : pyStartsWith "http" "http" = true := rfl
      have hsne : ("http" : String) ≠ "" := by decide
      simp [hne, hps, hsne]
    · unfold validate_http_url
      rw [hp2]
      have hps : pyStartsWith "https" "http" = true := rfl
      have hsne : ("https" : String) ≠ "" := by decide
      simp [hne, hps, hsne]

/-- C2 witness: the validator at concrete inputs, through the constructive
clause with a concrete host and a path plus query remainder. -/
theorem c2_url_validator_witness :
    validate_http_url "http://example.com/a?q=1" =
      Except.ok "http://example.com/a?q=1" ∧
    validate_http_url "https://example.com/a?q=1" =
      Except.ok "https://example.com/a?q=1" :=
  c2_url_validator.2.2.2 "example.com" "/a?q=1" (by decide) (by decide)
